import Mathlib

/-!
Verification of the caching core of `@fatlama/secrets-fetcher` /
`fl-secretsmanager-caching`: the classes `CachedSecret` (cached-secret.ts),
`CachedSecretVersion` (cached-secret-version.ts) and `SecretsCache`
(index.ts), embedded shallowly.

Modelling conventions:
* JavaScript numbers (`Date.now()` timestamps, TTLs, the value of
  `Math.random()`) are modelled as rationals `ℚ`; `Date.now()` and
  `Math.random()` are passed in as explicit parameters (`now`, `r`).
* The AWS SecretsManager client is modelled as a `Backend` record of two
  pure operations (`describeSecret`, `getSecretValue`) that either return
  a response or fail with an error value `Err`; a thrown JS exception is
  an `Except.error`.
* JS object mutation is modelled by returning the updated object; methods
  additionally return how many backend calls they performed, so that
  call-count properties can be stated.
* A JS string hash map (`StringHashMap`) is modelled as an association
  list where the *last* binding for a key wins (later assignments
  overwrite earlier ones).
* The `lru-cache` package (`new LRU(max)`) is modelled by a list of
  key/value pairs in recency order, most recently used first, truncated
  to the capacity on insertion.
-/

/-- Errors raised by the backend client. The caching core never inspects
errors; `notFound` models AWS's `ResourceNotFoundException`, `other`
models any other transport/service failure. -/
inductive Err where
  | notFound
  | other (msg : String)
deriving DecidableEq, Repr

/-- The fields of an AWS `GetSecretValueResponse` that this library reads
or stores (the payload record is treated as opaque data). -/
structure GetSecretValueResponse where
  ARN : Option String := none
  Name : Option String := none
  VersionId : Option String := none
  SecretString : Option String := none
  SecretBinary : Option String := none
  VersionStages : List String := []
deriving DecidableEq, Repr

/-- The object spread `{ ...v }` used at the end of
`CachedSecretVersion.getSecretValue`: a fresh record with every own field
copied. -/
def spreadCopy (v : GetSecretValueResponse) : GetSecretValueResponse :=
  { ARN := v.ARN
    Name := v.Name
    VersionId := v.VersionId
    SecretString := v.SecretString
    SecretBinary := v.SecretBinary
    VersionStages := v.VersionStages }

/-- The cache configuration (`CacheConfig` in types.ts) after defaults
are applied: every recognized option has a value. -/
structure CacheConfig where
  maxCacheSize : Nat
  secretRefreshInterval : ℚ
  defaultVersionStage : String
deriving DecidableEq, Repr

/-- A partial cache configuration as a consumer may supply it (each
recognized option may be absent). -/
structure PartialCacheConfig where
  maxCacheSize : Option Nat := none
  secretRefreshInterval : Option ℚ := none
  defaultVersionStage : Option String := none
deriving DecidableEq, Repr

/-- Modelled from the spec: `DEFAULT_CACHE_CONFIG` lives in the caching
library's types.ts, which is not among the provided sources. The spec
documents the defaults: `maxCacheSize` 128, `secretRefreshInterval` on
the order of one hour (milliseconds), `defaultVersionStage` the backend's
"current" label (`AWSCURRENT`). -/
def DEFAULT_CACHE_CONFIG : CacheConfig :=
  { maxCacheSize := 128
    secretRefreshInterval := 3600000
    defaultVersionStage := "AWSCURRENT" }

/-- The spread merge `{ ...DEFAULT_CACHE_CONFIG, ...opts.config }` in the
`SecretsCache` constructor, applied field-wise. -/
def mergeConfig (base : CacheConfig) (p : PartialCacheConfig) : CacheConfig :=
  { maxCacheSize := p.maxCacheSize.getD base.maxCacheSize
    secretRefreshInterval := p.secretRefreshInterval.getD base.secretRefreshInterval
    defaultVersionStage := p.defaultVersionStage.getD base.defaultVersionStage }

/-- The map stored under `VersionIdsToStages` in a `DescribeSecret`
response: version id → list of stages, in the response's key order. The
value is `Option` because the code guards `if (!stages)`. -/
abbrev VersionIdsToStages := List (String × Option (List String))

/-- The backend client (`Pick<SecretsManager, 'describeSecret' | 'getSecretValue'>`).
`describe secretId` models `describeSecret({SecretId}).promise()`, returning
the `VersionIdsToStages` field (absent when the secret has no versions);
`fetchValue secretId versionId` models
`getSecretValue({SecretId, VersionId}).promise()`. -/
structure Backend where
  describe : String → Except Err (Option VersionIdsToStages)
  fetchValue : String → String → Except Err GetSecretValueResponse

/-- Number of backend calls a top-level operation performed. -/
structure BackendCalls where
  describes : Nat
  fetches : Nat
deriving DecidableEq, Repr

/-- JS string-truthiness of an optional string argument: `undefined` and
`""` are falsy. -/
def strOptTruthy : Option String → Option String
  | none => none
  | some s => if s = "" then none else some s

/-- Lookup in a JS string hash map modelled as an association list where
the last binding wins (`m[k]`, `undefined` when absent). -/
def hashGet (m : List (String × String)) (k : String) : Option String :=
  (m.reverse.find? (fun p => decide (p.1 = k))).map (·.2)

/-- The read `this._versionIdsByStage[versionStage] || null` in
`CachedSecret._getVersionIdForStage`: `||` also maps an empty-string
value to `null`. -/
def lookupStage (m : List (String × String)) (stage : String) : Option String :=
  match hashGet m stage with
  | none => none
  | some v => if v = "" then none else some v

/-- The loop body of `CachedSecret._refreshVersions`: iterate the
response's version ids in order, skip a missing stages array, and assign
`versionIdsByStage[stage] = versionId` for each stage (later assignments
shadow earlier ones, which `hashGet` reflects by taking the last
binding). -/
def buildVersionIdsByStage (vits : VersionIdsToStages) : List (String × String) :=
  vits.foldl
    (fun acc p =>
      match p.2 with
      | none => acc
      | some stages => acc ++ stages.map (fun stage => (stage, p.1)))
    []

/-! ### The `lru-cache` model -/

/-- An LRU cache (`new LRU(max)`): `items` is the key/value list in
recency order, most recently used first; `cap` is the `max` passed to
the constructor. -/
structure LRU (K V : Type) where
  cap : Nat
  items : List (K × V)

/-- A fresh, empty LRU cache with the given capacity. -/
def LRU.empty (K V : Type) (cap : Nat) : LRU K V := ⟨cap, []⟩

/-- `cache.get(k)`: on a hit, return the value and move the key to the
most-recently-used position; on a miss, return nothing and leave the
cache unchanged. -/
def LRU.get {K V : Type} [DecidableEq K] (c : LRU K V) (k : K) :
    Option V × LRU K V :=
  match c.items.find? (fun p => decide (p.1 = k)) with
  | none => (none, c)
  | some p =>
      (some p.2, ⟨c.cap, (k, p.2) :: c.items.filter (fun q => decide (q.1 ≠ k))⟩)

/-- `cache.set(k, v)`: insert (or update) the key at the
most-recently-used position and drop everything beyond the capacity,
evicting the least recently used entries. -/
def LRU.set {K V : Type} [DecidableEq K] (c : LRU K V) (k : K) (v : V) :
    LRU K V :=
  ⟨c.cap, ((k, v) :: c.items.filter (fun q => decide (q.1 ≠ k))).take c.cap⟩

/-- In-place mutation of the object already stored under `k` (JS objects
are cached by reference, so mutating a cached object updates the cache
without touching recency order). -/
def LRU.updateInPlace {K V : Type} [DecidableEq K] (c : LRU K V) (k : K) (v : V) :
    LRU K V :=
  ⟨c.cap, c.items.map (fun p => if p.1 = k then (k, v) else p)⟩

/-! ### `CachedSecretVersion` (cached-secret-version.ts) -/

/-- The state of a `CachedSecretVersion` object. The client is not part
of the state; it is passed to each operation as the `Backend`. -/
structure CachedSecretVersion where
  config : CacheConfig
  secretId : String
  versionId : String
  secretValue : Option GetSecretValueResponse
  nextRefreshTime : ℚ
deriving DecidableEq, Repr

/-- The `CachedSecretVersion` constructor: no cached value, and
`_nextRefreshTime = Date.now() - 1` so the first resolve refreshes. -/
def CachedSecretVersion.new (config : CacheConfig) (secretId versionId : String)
    (now : ℚ) : CachedSecretVersion :=
  { config := config
    secretId := secretId
    versionId := versionId
    secretValue := none
    nextRefreshTime := now - 1 }

/-- `CachedSecretVersion._resetRefreshTime`: with `ttl` the configured
`secretRefreshInterval`, `midTtl = Math.floor(ttl / 2)` and
`randomTtl = midTtl + Math.random() * (ttl - midTtl)`, set
`_nextRefreshTime = Date.now() + randomTtl`. -/
def CachedSecretVersion.resetRefreshTime (st : CachedSecretVersion)
    (now r : ℚ) : ℚ :=
  let ttl := st.config.secretRefreshInterval
  let midTtl : ℚ := (⌊ttl / 2⌋ : ℤ)
  let randomTtl := midTtl + r * (ttl - midTtl)
  now + randomTtl

/-- `CachedSecretVersion._refreshSecretValue`: fetch the value, store it,
reset the refresh time. A backend error propagates (there is no catch),
in which case no field was assigned. -/
def CachedSecretVersion.refreshSecretValue (st : CachedSecretVersion)
    (b : Backend) (now r : ℚ) : Except Err CachedSecretVersion :=
  match b.fetchValue st.secretId st.versionId with
  | .error e => .error e
  | .ok result =>
      .ok { st with
              secretValue := some result
              nextRefreshTime := st.resetRefreshTime now r }

/-- `CachedSecretVersion.getSecretValue`: refresh when
`Date.now() > _nextRefreshTime`, then return `null` when no value is
cached, else a spread copy of the cached value. Returns the result (or
the propagated error), the updated object, and the number of
`getSecretValue` backend calls made. -/
def CachedSecretVersion.getSecretValue (st : CachedSecretVersion)
    (b : Backend) (now r : ℚ) :
    Except Err (Option GetSecretValueResponse) × CachedSecretVersion × Nat :=
  if now > st.nextRefreshTime then
    match st.refreshSecretValue b now r with
    | .error e => (.error e, st, 1)
    | .ok st' => (.ok (st'.secretValue.map spreadCopy), st', 1)
  else
    (.ok (st.secretValue.map spreadCopy), st, 0)

/-! ### `CachedSecret` (cached-secret.ts) -/

/-- The state of a `CachedSecret` object: the stage → version-id mapping,
its refresh deadline, and the per-secret LRU cache of
`CachedSecretVersion` objects. -/
structure CachedSecret where
  config : CacheConfig
  secretId : String
  versionIdsByStage : List (String × String)
  nextRefreshTime : ℚ
  versionCache : LRU String CachedSecretVersion

/-- The `CachedSecret` constructor: empty mapping, a 10-entry LRU version
cache, and `_nextRefreshTime = Date.now() - 1` so the first stage lookup
refreshes. -/
def CachedSecret.new (config : CacheConfig) (secretId : String) (now : ℚ) :
    CachedSecret :=
  { config := config
    secretId := secretId
    versionIdsByStage := []
    nextRefreshTime := now - 1
    versionCache := LRU.empty String CachedSecretVersion 10 }

/-- `CachedSecret._resetRefreshTime` (textually identical to the one in
cached-secret-version.ts). -/
def CachedSecret.resetRefreshTime (st : CachedSecret) (now r : ℚ) : ℚ :=
  let ttl := st.config.secretRefreshInterval
  let midTtl : ℚ := (⌊ttl / 2⌋ : ℤ)
  let randomTtl := midTtl + r * (ttl - midTtl)
  now + randomTtl

/-- `CachedSecret._refreshVersions`: describe the secret; with no
`VersionIdsToStages` clear the mapping and return (without resetting the
refresh time); otherwise rebuild the mapping wholesale and reset the
refresh time. A describe error propagates, in which case no field was
assigned. -/
def CachedSecret.refreshVersions (st : CachedSecret) (b : Backend)
    (now r : ℚ) : Except Err CachedSecret :=
  match b.describe st.secretId with
  | .error e => .error e
  | .ok none => .ok { st with versionIdsByStage := [] }
  | .ok (some vits) =>
      .ok { st with
              versionIdsByStage := buildVersionIdsByStage vits
              nextRefreshTime := st.resetRefreshTime now r }

/-- `CachedSecret._getVersionIdForStage`: refresh the mapping when
`Date.now() > _nextRefreshTime`, then look the stage up. Returns the
version id (or `null`, or the propagated error), the updated object, and
the number of describe calls made. -/
def CachedSecret.getVersionIdForStage (st : CachedSecret) (b : Backend)
    (now r : ℚ) (versionStage : String) :
    Except Err (Option String) × CachedSecret × Nat :=
  if now > st.nextRefreshTime then
    match st.refreshVersions b now r with
    | .error e => (.error e, st, 1)
    | .ok st' => (.ok (lookupStage st'.versionIdsByStage versionStage), st', 1)
  else
    (.ok (lookupStage st.versionIdsByStage versionStage), st, 0)

/-- `CachedSecret._getVersionById`: return the cached
`CachedSecretVersion` (marking it most recently used), or construct one
and insert it into the version cache. -/
def CachedSecret.getVersionById (st : CachedSecret) (now : ℚ)
    (versionId : String) : CachedSecretVersion × CachedSecret :=
  match st.versionCache.get versionId with
  | (some existing, cache') => (existing, { st with versionCache := cache' })
  | (none, _) =>
      let version := CachedSecretVersion.new st.config st.secretId versionId now
      (version, { st with versionCache := st.versionCache.set versionId version })

/-- `CachedSecret._getVersionForStage`: resolve the stage to a version id
and delegate to `_getVersionById`; `null` when the stage is unknown. -/
def CachedSecret.getVersionForStage (st : CachedSecret) (b : Backend)
    (now r : ℚ) (versionStage : String) :
    Except Err (Option CachedSecretVersion) × CachedSecret × Nat :=
  match st.getVersionIdForStage b now r versionStage with
  | (.error e, st', d) => (.error e, st', d)
  | (.ok none, st', d) => (.ok none, st', d)
  | (.ok (some versionId), st', d) =>
      let vs := st'.getVersionById now versionId
      (.ok (some vs.1), vs.2, d)

/-- The request argument of `CachedSecret.getSecretValue`
(`Pick<GetSecretValueRequest, 'VersionId' | 'VersionStage'>`). -/
structure GetSecretValueRequest where
  VersionId : Option String := none
  VersionStage : Option String := none
deriving DecidableEq, Repr

/-- `CachedSecret.getSecretValue`: with a truthy `VersionId`, resolve the
version directly; otherwise resolve `VersionStage || defaultVersionStage`
through the stage mapping and return `null` when the stage is unknown.
`r` is the random draw used by a mapping refresh, `rv` the one used by a
value refresh. The mutation the version object performs on itself during
its own `getSecretValue` is written back to the version cache in place
(the cache holds the object by reference). -/
def CachedSecret.getSecretValue (st : CachedSecret) (b : Backend)
    (now r rv : ℚ) (request : GetSecretValueRequest) :
    Except Err (Option GetSecretValueResponse) × CachedSecret × BackendCalls :=
  match strOptTruthy request.VersionId with
  | some versionId =>
      let vs := st.getVersionById now versionId
      let res := vs.1.getSecretValue b now rv
      (res.1,
       { vs.2 with versionCache := vs.2.versionCache.updateInPlace versionId res.2.1 },
       ⟨0, res.2.2⟩)
  | none =>
      let versionStage :=
        (strOptTruthy request.VersionStage).getD st.config.defaultVersionStage
      match st.getVersionForStage b now r versionStage with
      | (.error e, st', d) => (.error e, st', ⟨d, 0⟩)
      | (.ok none, st', d) => (.ok none, st', ⟨d, 0⟩)
      | (.ok (some version), st', d) =>
          let res := version.getSecretValue b now rv
          (res.1,
           { st' with
               versionCache := st'.versionCache.updateInPlace version.versionId res.2.1 },
           ⟨d, res.2.2⟩)

/-! ### `SecretsCache` (index.ts) -/

/-- The state of a `SecretsCache`: the top-level LRU of `CachedSecret`
entries and the merged configuration. -/
structure SecretsCache where
  config : CacheConfig
  cache : LRU String CachedSecret

/-- The `SecretsCache` constructor:
`_config = { ...DEFAULT_CACHE_CONFIG, ...opts.config }` and
`_cache = new LRU(this._config.maxCacheSize)`. -/
def SecretsCache.new (p : PartialCacheConfig) : SecretsCache :=
  let config := mergeConfig DEFAULT_CACHE_CONFIG p
  { config := config
    cache := LRU.empty String CachedSecret config.maxCacheSize }

/-! ### An object-identity model of the cached payload

`CachedSecretVersion.getSecretValue` returns `{ ...this._secretValue }`,
a freshly allocated object. To state that the returned object is a
*distinct* record that mutating cannot affect the cache, object identity
is made explicit: payload objects live in a heap (a list indexed by
allocation order), the version entry holds a reference, and the spread
allocates a fresh reference. -/

/-- A heap of payload objects; a reference is an index into the list. -/
abbrev Heap := List GetSecretValueResponse

/-- Dereference: the object a reference points at, if the reference is
valid. -/
def Heap.read (h : Heap) (r : Nat) : Option GetSecretValueResponse := h[r]?

/-- Allocate a fresh object, returning its (fresh) reference. -/
def Heap.alloc (h : Heap) (v : GetSecretValueResponse) : Nat × Heap :=
  (h.length, h ++ [v])

/-- Mutate the object behind a reference. -/
def Heap.write (h : Heap) (r : Nat) (v : GetSecretValueResponse) : Heap :=
  h.set r v

/-- The return path of `CachedSecretVersion.getSecretValue` when the
cached value is not due for refresh, with object identity explicit:
`if (!this._secretValue) return null; return { ...this._secretValue }`
reads the cached object and allocates a fresh copy of it. -/
def returnCachedCopy (h : Heap) (payloadRef : Option Nat) : Option Nat × Heap :=
  match payloadRef with
  | none => (none, h)
  | some p =>
      match h.read p with
      | none => (none, h)
      | some v => let a := h.alloc (spreadCopy v); (some a.1, a.2)

/-! ### Helper lemmas about the LRU model -/

/-- Filtering out a key that occurs in the list strictly shrinks it. -/
lemma length_filter_lt_of_mem_false {α : Type} {p : α → Bool} {l : List α} {x : α}
    (hx : x ∈ l) (hpx : p x = false) : (l.filter p).length < l.length := by
  induction l with
  | nil => cases hx
  | cons a l ih =>
    rcases List.mem_cons.mp hx with rfl | hx'
    · rw [List.filter_cons, hpx]
      exact Nat.lt_succ_of_le (List.length_filter_le _ _)
    · rw [List.filter_cons]
      by_cases hpa : p a
      · simp only [hpa, cond_true, List.length_cons]
        exact Nat.succ_lt_succ (ih hx')
      · simp only [Bool.not_eq_true] at hpa
        simp only [hpa, cond_false, List.length_cons]
        exact Nat.lt_succ_of_lt (ih hx')

/-- `set` never leaves more than `cap` entries in the cache. -/
lemma LRU.length_set_le {K V : Type} [DecidableEq K] (c : LRU K V) (k : K) (v : V) :
    (c.set k v).items.length ≤ c.cap :=
  List.length_take_le _ _

/-- `get` never grows the cache. -/
lemma LRU.length_get_le {K V : Type} [DecidableEq K] (c : LRU K V) (k : K) :
    (c.get k).2.items.length ≤ c.items.length := by
  unfold LRU.get
  cases hf : c.items.find? (fun p => decide (p.1 = k)) with
  | none => exact le_refl _
  | some p =>
    have hmem : p ∈ c.items := List.mem_of_find?_eq_some hf
    have hpk' := List.find?_some hf
    have hpk : p.1 = k := by simpa using hpk'
    have hlt : (c.items.filter (fun q => decide (q.1 ≠ k))).length < c.items.length :=
      length_filter_lt_of_mem_false hmem (by simp [hpk])
    simpa using hlt

/-- Inserting a fresh key into a full cache keeps the fresh entry and all
prior entries except the least recently used (last) one. -/
lemma LRU.set_full_fresh {K V : Type} [DecidableEq K] (c : LRU K V) (k : K) (v : V)
    (hfull : c.items.length = c.cap) (hpos : 0 < c.cap)
    (hfresh : ∀ q ∈ c.items, q.1 ≠ k) :
    (c.set k v).items = (k, v) :: c.items.dropLast := by
  unfold LRU.set
  have hfilter : c.items.filter (fun q => decide (q.1 ≠ k)) = c.items :=
    List.filter_eq_self.mpr (fun a ha => decide_eq_true (hfresh a ha))
  rw [hfilter]
  obtain ⟨n, hn⟩ : ∃ n, c.cap = n + 1 := ⟨c.cap - 1, (Nat.succ_pred_eq_of_pos hpos).symm⟩
  show ((k, v) :: c.items).take c.cap = (k, v) :: c.items.dropLast
  rw [hn, List.take_succ_cons, List.dropLast_eq_take, hfull, hn]
  norm_num

/-- Claim C7: every `CachedSecret`'s per-secret version cache is created
with capacity 10 and the top-level `SecretsCache` store with capacity
`maxCacheSize`; the LRU operations keep a cache within its capacity, and
inserting a fresh key into a full cache evicts exactly the
least-recently-used entry (at either level). -/
theorem c7_capacity_and_eviction :
    (∀ (config : CacheConfig) (secretId : String) (now : ℚ),
        (CachedSecret.new config secretId now).versionCache.cap = 10)
    ∧ (∀ (p : PartialCacheConfig) (m : Nat), p.maxCacheSize = some m →
        (SecretsCache.new p).cache.cap = m)
    ∧ (∀ (c : LRU String CachedSecretVersion) (k : String) (v : CachedSecretVersion),
        (c.set k v).items.length ≤ c.cap
        ∧ (c.get k).2.items.length ≤ c.items.length
        ∧ (c.items.length = c.cap → 0 < c.cap → (∀ q ∈ c.items, q.1 ≠ k) →
            (c.set k v).items = (k, v) :: c.items.dropLast))
    ∧ (∀ (c : LRU String CachedSecret) (k : String) (v : CachedSecret),
        (c.set k v).items.length ≤ c.cap
        ∧ (c.get k).2.items.length ≤ c.items.length
        ∧ (c.items.length = c.cap → 0 < c.cap → (∀ q ∈ c.items, q.1 ≠ k) →
            (c.set k v).items = (k, v) :: c.items.dropLast)) := by
  refine ⟨fun _ _ _ => rfl, fun p m hm => ?_, fun c k v => ?_, fun c k v => ?_⟩
  · simp [SecretsCache.new, mergeConfig, LRU.empty, hm]
  · exact ⟨LRU.length_set_le c k v, LRU.length_get_le c k,
      fun h1 h2 h3 => LRU.set_full_fresh c k v h1 h2 h3⟩
  · exact ⟨LRU.length_set_le c k v, LRU.length_get_le c k,
      fun h1 h2 h3 => LRU.set_full_fresh c k v h1 h2 h3⟩

/-- Two distinct `CachedSecret` entries used by the C7 witness. -/
def c7secA : CachedSecret := CachedSecret.new DEFAULT_CACHE_CONFIG "a" 0

/-- See `c7secA`. -/
def c7secB : CachedSecret := CachedSecret.new DEFAULT_CACHE_CONFIG "b" 0

/-- See `c7secA`. -/
def c7secC : CachedSecret := CachedSecret.new DEFAULT_CACHE_CONFIG "c" 0

/-- A full two-entry top-level cache ("a" most recently used). -/
def c7full : LRU String CachedSecret := ⟨2, [("a", c7secA), ("b", c7secB)]⟩

/-- Witness for C7 at concrete inputs: version-cache capacity 10, store
capacity from the configuration, and inserting "c" into a full cache
containing "a", "b" evicts the least recently used "b". -/
theorem c7_witness :
    (CachedSecret.new DEFAULT_CACHE_CONFIG "s" 0).versionCache.cap = 10
    ∧ (SecretsCache.new { maxCacheSize := some 2 }).cache.cap = 2
    ∧ (c7full.set "c" c7secC).items = ("c", c7secC) :: [("a", c7secA)] := by
  have hfresh : ∀ q ∈ c7full.items, q.1 ≠ "c" := by
    intro q hq
    simp only [c7full, List.mem_cons, List.not_mem_nil, or_false] at hq
    rcases hq with rfl | rfl <;> simp
  have h := (c7_capacity_and_eviction.2.2.2 c7full "c" c7secC).2.2 rfl
    (by norm_num [c7full]) hfresh
  exact ⟨c7_capacity_and_eviction.1 DEFAULT_CACHE_CONFIG "s" 0,
    c7_capacity_and_eviction.2.1 { maxCacheSize := some 2 } 2 rfl,
    by rw [h]; rfl⟩

/-- Claim C3: when a value refresh is due and the backend fetch fails
with any error (in particular a non-not-found one), the error propagates
unchanged out of `getSecretValue`, and the `CachedSecretVersion` object
is left exactly as it was (cached payload and refresh time untouched). -/
theorem c3_error_propagation (vst : CachedSecretVersion) (b : Backend)
    (now r : ℚ) (e : Err)
    (hstale : now > vst.nextRefreshTime)
    (hother : e ≠ Err.notFound)
    (hf : b.fetchValue vst.secretId vst.versionId = .error e) :
    vst.getSecretValue b now r = (.error e, vst, 1) := by
  unfold CachedSecretVersion.getSecretValue CachedSecretVersion.refreshSecretValue
  rw [if_pos hstale, hf]

/-- A backend whose fetch always fails with a transport error. -/
def c3backend : Backend :=
  { describe := fun _ => .ok none
    fetchValue := fun _ _ => .error (Err.other "connection reset") }

/-- A stale version entry holding a previously cached payload. -/
def c3vst : CachedSecretVersion :=
  { config := DEFAULT_CACHE_CONFIG
    secretId := "s"
    versionId := "v1"
    secretValue := some { SecretString := some "old" }
    nextRefreshTime := -1 }

/-- Witness for C3: the transport error comes out unchanged and the stale
cached payload survives. -/
theorem c3_witness :
    c3vst.getSecretValue c3backend 0 0
      = (.error (Err.other "connection reset"), c3vst, 1) :=
  c3_error_propagation c3vst c3backend 0 0 (Err.other "connection reset")
    (by norm_num [c3vst]) (by simp) rfl

/-- Claim C4: a resolve issued at a time not after the stored refresh
deadline performs no backend call and serves the cached state unchanged —
at the mapping layer (`_getVersionIdForStage` answers from
`_versionIdsByStage`) and at the value layer (`getSecretValue` answers
with a copy of the cached payload). -/
theorem c4_fresh_cache_no_backend_call (st : CachedSecret)
    (vst : CachedSecretVersion) (b : Backend) (now r : ℚ) (stage : String)
    (hm : ¬ now > st.nextRefreshTime)
    (hv : ¬ now > vst.nextRefreshTime) :
    st.getVersionIdForStage b now r stage
      = (.ok (lookupStage st.versionIdsByStage stage), st, 0)
    ∧ vst.getSecretValue b now r
      = (.ok (vst.secretValue.map spreadCopy), vst, 0) := by
  constructor
  · unfold CachedSecret.getVersionIdForStage
    rw [if_neg hm]
  · unfold CachedSecretVersion.getSecretValue
    rw [if_neg hv]

/-- A mapping-layer state whose deadline has not yet passed. -/
def c4st : CachedSecret :=
  { config := DEFAULT_CACHE_CONFIG
    secretId := "s"
    versionIdsByStage := [("AWSCURRENT", "v2")]
    nextRefreshTime := 100
    versionCache := LRU.empty String CachedSecretVersion 10 }

/-- A value-layer state whose deadline has not yet passed. -/
def c4vst : CachedSecretVersion :=
  { config := DEFAULT_CACHE_CONFIG
    secretId := "s"
    versionId := "v2"
    secretValue := some { SecretString := some "payload" }
    nextRefreshTime := 100 }

/-- A backend that would fail loudly if it were consulted. -/
def c4backend : Backend :=
  { describe := fun _ => .error (Err.other "must not be called")
    fetchValue := fun _ _ => .error (Err.other "must not be called") }

/-- Witness for C4: at `now = 50 ≤ 100` both layers answer from cache
with zero backend calls, even against a backend that only fails. -/
theorem c4_witness :
    c4st.getVersionIdForStage c4backend 50 0 "AWSCURRENT"
      = (.ok (some "v2"), c4st, 0)
    ∧ c4vst.getSecretValue c4backend 50 0
      = (.ok (some (spreadCopy { SecretString := some "payload" })), c4vst, 0) := by
  have h := c4_fresh_cache_no_backend_call c4st c4vst c4backend 50 0 "AWSCURRENT"
    (by norm_num [c4st]) (by norm_num [c4vst])
  exact ⟨by rw [h.1]; rfl, by rw [h.2]; rfl⟩

/-- A never-fetched version entry that is due for refresh. -/
def c2vst : CachedSecretVersion :=
  { config := DEFAULT_CACHE_CONFIG
    secretId := "s"
    versionId := "v9"
    secretValue := none
    nextRefreshTime := -1 }

/-- A backend on which version `v9` does not exist. -/
def c2backend : Backend :=
  { describe := fun _ => .ok none
    fetchValue := fun _ _ => .error Err.notFound }

/-- Counterexample to C2: resolving a version whose backend fetch fails
with not-found *raises* the not-found error instead of returning absent
(`.ok none`) — `_refreshSecretValue` has no error handling at all. -/
theorem c2_counterexample :
    (c2vst.getSecretValue c2backend 0 0).1 = .error Err.notFound
    ∧ (c2vst.getSecretValue c2backend 0 0).1 ≠ .ok none := by
  constructor
  · rfl
  · intro h
    rw [show (c2vst.getSecretValue c2backend 0 0).1
        = .error Err.notFound from rfl] at h
    exact Except.noConfusion h

/-- Claim C2 as amended: when the payload is due for refresh and the
backend fetch fails with not-found, the error propagates unchanged (the
code treats not-found like every other failure), and the entry's cached
payload and next refresh time are left untouched. -/
theorem c2_notfound_propagates (vst : CachedSecretVersion) (b : Backend)
    (now r : ℚ)
    (hstale : now > vst.nextRefreshTime)
    (hf : b.fetchValue vst.secretId vst.versionId = .error Err.notFound) :
    vst.getSecretValue b now r = (.error Err.notFound, vst, 1) := by
  unfold CachedSecretVersion.getSecretValue CachedSecretVersion.refreshSecretValue
  rw [if_pos hstale, hf]

/-- Witness for the amended C2 at the counterexample input. -/
theorem c2_witness :
    c2vst.getSecretValue c2backend 0 0 = (.error Err.notFound, c2vst, 1) :=
  c2_notfound_propagates c2vst c2backend 0 0 (by norm_num [c2vst]) rfl

/-- A stale mapping-layer entry holding a previous mapping. -/
def c1st : CachedSecret :=
  { config := DEFAULT_CACHE_CONFIG
    secretId := "s"
    versionIdsByStage := [("AWSCURRENT", "v1")]
    nextRefreshTime := -1
    versionCache := LRU.empty String CachedSecretVersion 10 }

/-- A backend whose describe succeeds but reports no version/stage
mapping (`VersionIdsToStages` absent). -/
def c1backend : Backend :=
  { describe := fun _ => .ok none
    fetchValue := fun _ _ => .error Err.notFound }

/-- Counterexample to C1: after a stage resolve triggers a refresh and
describe reports no mapping, the mapping is indeed emptied, but the
refresh time is *not* recomputed to a future instant (it keeps its stale
value), and an immediately following stage resolve issues another
describe call (one, not zero). -/
theorem c1_counterexample :
    ((c1st.getVersionIdForStage c1backend 0 0 "AWSCURRENT").2.1.versionIdsByStage = []
     ∧ ¬ ((0 : ℚ) < (c1st.getVersionIdForStage c1backend 0 0 "AWSCURRENT").2.1.nextRefreshTime))
    ∧ (((c1st.getVersionIdForStage c1backend 0 0 "AWSCURRENT").2.1.getVersionIdForStage
          c1backend 0 0 "AWSCURRENT").2.2 = 1) := by
  refine ⟨⟨rfl, ?_⟩, rfl⟩
  intro h
  norm_num [show (c1st.getVersionIdForStage c1backend 0 0 "AWSCURRENT").2.1.nextRefreshTime
      = -1 from rfl] at h

/-- Claim C1 as amended: on a describe response with no version/stage
mapping, the mapping is set to empty but the next refresh time is left
unchanged (not recomputed), so an immediately following stage-based
resolve issues another describe call. -/
theorem c1_empty_mapping_no_reset (st : CachedSecret) (b : Backend)
    (now r r' : ℚ) (stage stage' : String)
    (hstale : now > st.nextRefreshTime)
    (hdesc : b.describe st.secretId = .ok none) :
    st.getVersionIdForStage b now r stage
      = (.ok none, { st with versionIdsByStage := [] }, 1)
    ∧ (({ st with versionIdsByStage := [] } : CachedSecret).getVersionIdForStage
          b now r' stage').2.2 = 1 := by
  constructor
  · unfold CachedSecret.getVersionIdForStage CachedSecret.refreshVersions
    rw [if_pos hstale, hdesc]
    rfl
  · unfold CachedSecret.getVersionIdForStage CachedSecret.refreshVersions
    rw [if_pos (show now > ({ st with versionIdsByStage := [] } :
          CachedSecret).nextRefreshTime from hstale), hdesc]

/-- Witness for the amended C1 at the counterexample input. -/
theorem c1_witness :
    c1st.getVersionIdForStage c1backend 0 0 "AWSCURRENT"
      = (.ok none, { c1st with versionIdsByStage := [] }, 1)
    ∧ (({ c1st with versionIdsByStage := [] } : CachedSecret).getVersionIdForStage
          c1backend 0 0 "AWSPREVIOUS").2.2 = 1 :=
  c1_empty_mapping_no_reset c1st c1backend 0 0 0 "AWSCURRENT" "AWSPREVIOUS"
    (by norm_num [c1st]) rfl

/-! ### Helper lemmas about the jitter formula -/

/-- The value `midTtl + r * (ttl - midTtl)` with `midTtl = ⌊ttl/2⌋` lies
in `[⌊ttl/2⌋, ttl)` for a draw `r ∈ [0, 1)` and positive `ttl`. -/
lemma jitter_spec (ttl now r : ℚ) (h0 : 0 ≤ r) (h1 : r < 1) (hp : 0 < ttl) :
    now + ((⌊ttl / 2⌋ : ℤ) : ℚ)
        ≤ now + (((⌊ttl / 2⌋ : ℤ) : ℚ) + r * (ttl - ((⌊ttl / 2⌋ : ℤ) : ℚ)))
    ∧ now + (((⌊ttl / 2⌋ : ℤ) : ℚ) + r * (ttl - ((⌊ttl / 2⌋ : ℤ) : ℚ)))
        < now + ttl := by
  have hmid_le : ((⌊ttl / 2⌋ : ℤ) : ℚ) ≤ ttl / 2 := Int.floor_le _
  have hlt : ((⌊ttl / 2⌋ : ℤ) : ℚ) < ttl := lt_of_le_of_lt hmid_le (by linarith)
  constructor
  · have hnn : 0 ≤ r * (ttl - ((⌊ttl / 2⌋ : ℤ) : ℚ)) :=
      mul_nonneg h0 (by linarith)
    linarith
  · have hub : r * (ttl - ((⌊ttl / 2⌋ : ℤ) : ℚ))
        < 1 * (ttl - ((⌊ttl / 2⌋ : ℤ) : ℚ)) :=
      mul_lt_mul_of_pos_right h1 (by linarith)
    linarith

/-- Claim C8 as amended: both `_resetRefreshTime` implementations set the
deadline to `now + ⌊T/2⌋ + r·(T − ⌊T/2⌋)` (the code floors the
midpoint), which lies in `[now + ⌊T/2⌋, now + T)`; when `T/2` is an
integer this coincides with the claimed `now + T/2 + r·(T/2)`. -/
theorem c8_jitter_floor (vst : CachedSecretVersion) (cst : CachedSecret)
    (now r : ℚ) (h0 : 0 ≤ r) (h1 : r < 1)
    (hv : 0 < vst.config.secretRefreshInterval)
    (hc : 0 < cst.config.secretRefreshInterval) :
    (vst.resetRefreshTime now r
        = now + (((⌊vst.config.secretRefreshInterval / 2⌋ : ℤ) : ℚ)
            + r * (vst.config.secretRefreshInterval
                - ((⌊vst.config.secretRefreshInterval / 2⌋ : ℤ) : ℚ)))
      ∧ now + ((⌊vst.config.secretRefreshInterval / 2⌋ : ℤ) : ℚ)
          ≤ vst.resetRefreshTime now r
      ∧ vst.resetRefreshTime now r < now + vst.config.secretRefreshInterval
      ∧ (((⌊vst.config.secretRefreshInterval / 2⌋ : ℤ) : ℚ)
            = vst.config.secretRefreshInterval / 2 →
          vst.resetRefreshTime now r
            = now + vst.config.secretRefreshInterval / 2
                + r * (vst.config.secretRefreshInterval / 2)))
    ∧ (cst.resetRefreshTime now r
        = now + (((⌊cst.config.secretRefreshInterval / 2⌋ : ℤ) : ℚ)
            + r * (cst.config.secretRefreshInterval
                - ((⌊cst.config.secretRefreshInterval / 2⌋ : ℤ) : ℚ)))
      ∧ now + ((⌊cst.config.secretRefreshInterval / 2⌋ : ℤ) : ℚ)
          ≤ cst.resetRefreshTime now r
      ∧ cst.resetRefreshTime now r < now + cst.config.secretRefreshInterval
      ∧ (((⌊cst.config.secretRefreshInterval / 2⌋ : ℤ) : ℚ)
            = cst.config.secretRefreshInterval / 2 →
          cst.resetRefreshTime now r
            = now + cst.config.secretRefreshInterval / 2
                + r * (cst.config.secretRefreshInterval / 2))) := by
  have hvj := jitter_spec vst.config.secretRefreshInterval now r h0 h1 hv
  have hcj := jitter_spec cst.config.secretRefreshInterval now r h0 h1 hc
  refine ⟨⟨rfl, hvj.1, hvj.2, fun heq => ?_⟩, ⟨rfl, hcj.1, hcj.2, fun heq => ?_⟩⟩
  · have e1 : vst.resetRefreshTime now r
        = now + (((⌊vst.config.secretRefreshInterval / 2⌋ : ℤ) : ℚ)
            + r * (vst.config.secretRefreshInterval
                - ((⌊vst.config.secretRefreshInterval / 2⌋ : ℤ) : ℚ))) := rfl
    rw [e1, heq]; ring
  · have e1 : cst.resetRefreshTime now r
        = now + (((⌊cst.config.secretRefreshInterval / 2⌋ : ℤ) : ℚ)
            + r * (cst.config.secretRefreshInterval
                - ((⌊cst.config.secretRefreshInterval / 2⌋ : ℤ) : ℚ))) := rfl
    rw [e1, heq]; ring

/-- A configuration with an odd TTL of 3 ms. -/
def c8cfg3 : CacheConfig :=
  { maxCacheSize := 128, secretRefreshInterval := 3,
    defaultVersionStage := "AWSCURRENT" }

/-- A version entry configured with the odd TTL. -/
def c8vst3 : CachedSecretVersion :=
  { config := c8cfg3, secretId := "s", versionId := "v",
    secretValue := none, nextRefreshTime := -1 }

/-- Counterexample to C8: with TTL `T = 3`, `now = 0` and draw `r = 0`,
the code computes `0 + ⌊3/2⌋ + 0·(3 − ⌊3/2⌋) = 1`, not the claimed
`0 + 3/2 + 0·(3/2) = 3/2`. -/
theorem c8_counterexample :
    c8vst3.resetRefreshTime 0 0 ≠ 0 + 3 / 2 + 0 * (3 / 2) := by
  have e1 : c8vst3.resetRefreshTime 0 0 = 1 := by
    show (0 : ℚ) + (((⌊(3 : ℚ) / 2⌋ : ℤ) : ℚ)
        + 0 * ((3 : ℚ) - ((⌊(3 : ℚ) / 2⌋ : ℤ) : ℚ))) = 1
    norm_num
  rw [e1]
  norm_num

/-- A configuration with an even TTL of 4 ms. -/
def c8cfg4 : CacheConfig :=
  { maxCacheSize := 128, secretRefreshInterval := 4,
    defaultVersionStage := "AWSCURRENT" }

/-- A version entry configured with the even TTL. -/
def c8evst : CachedSecretVersion :=
  { config := c8cfg4, secretId := "s", versionId := "v",
    secretValue := none, nextRefreshTime := -1 }

/-- A mapping entry configured with the even TTL. -/
def c8ecst : CachedSecret :=
  { config := c8cfg4, secretId := "s", versionIdsByStage := [],
    nextRefreshTime := -1,
    versionCache := LRU.empty String CachedSecretVersion 10 }

/-- Witness for the amended C8: at TTL 4, `now = 0`, `r = 1/2`, both
deadlines fall strictly inside the TTL window. -/
theorem c8_witness :
    (0 : ℚ) ≤ 1 / 2 ∧ (1 / 2 : ℚ) < 1
    ∧ 0 < c8evst.config.secretRefreshInterval
    ∧ 0 < c8ecst.config.secretRefreshInterval
    ∧ c8evst.resetRefreshTime 0 (1 / 2) < 0 + c8evst.config.secretRefreshInterval
    ∧ c8ecst.resetRefreshTime 0 (1 / 2) < 0 + c8ecst.config.secretRefreshInterval := by
  have h := c8_jitter_floor c8evst c8ecst 0 (1 / 2) (by norm_num) (by norm_num)
    (by norm_num [c8evst, c8cfg4]) (by norm_num [c8ecst, c8cfg4])
  exact ⟨by norm_num, by norm_num, by norm_num [c8evst, c8cfg4],
    by norm_num [c8ecst, c8cfg4], h.1.2.2.1, h.2.2.2.1⟩

/-- Claim C9: when a cached payload exists and is not due for refresh,
`getSecretValue` performs no backend call and returns a *copy* of the
cached payload: in the object-identity model the returned reference is
fresh (distinct from the cached one), points at a structurally equal
record, and writing through it does not change the object behind the
cached reference. -/
theorem c9_copy_on_read (vst : CachedSecretVersion) (b : Backend) (now r : ℚ)
    (h : Heap) (p : Nat) (v : GetSecretValueResponse)
    (hfresh : ¬ now > vst.nextRefreshTime)
    (hread : h.read p = some v) :
    vst.getSecretValue b now r = (.ok (vst.secretValue.map spreadCopy), vst, 0)
    ∧ spreadCopy v = v
    ∧ (returnCachedCopy h (some p)).1 = some h.length
    ∧ p ≠ h.length
    ∧ (returnCachedCopy h (some p)).2.read h.length = some v
    ∧ ∀ w, ((returnCachedCopy h (some p)).2.write h.length w).read p = some v := by
  have hplt : p < h.length := (List.getElem?_eq_some.mp hread).choose
  have hcopy : returnCachedCopy h (some p) = (some h.length, h ++ [spreadCopy v]) := by
    unfold returnCachedCopy
    dsimp only
    rw [hread]
    rfl
  refine ⟨?_, rfl, ?_, Nat.ne_of_lt hplt, ?_, ?_⟩
  · unfold CachedSecretVersion.getSecretValue
    rw [if_neg hfresh]
  · rw [hcopy]
  · rw [hcopy]
    show (h ++ [spreadCopy v])[h.length]? = some v
    rw [List.getElem?_concat_length]
    rfl
  · intro w
    rw [hcopy]
    show ((h ++ [spreadCopy v]).set h.length w)[p]? = some v
    rw [List.getElem?_set_ne (Nat.ne_of_lt hplt).symm,
        List.getElem?_append_left hplt]
    exact hread

/-- A one-object heap holding the cached payload of the C9 witness. -/
def c9heap : Heap := [{ SecretString := some "payload" }]

/-- A not-yet-stale version entry whose cached payload is the heap
object. -/
def c9vst : CachedSecretVersion :=
  { config := DEFAULT_CACHE_CONFIG
    secretId := "s"
    versionId := "v1"
    secretValue := some { SecretString := some "payload" }
    nextRefreshTime := 100 }

/-- A backend that would fail loudly if it were consulted. -/
def c9backend : Backend :=
  { describe := fun _ => .error (Err.other "must not be called")
    fetchValue := fun _ _ => .error (Err.other "must not be called") }

/-- Witness for C9 at a concrete heap and entry. -/
theorem c9_witness :
    c9vst.getSecretValue c9backend 50 0
      = (.ok (c9vst.secretValue.map spreadCopy), c9vst, 0)
    ∧ (returnCachedCopy c9heap (some 0)).1 = some c9heap.length
    ∧ (0 : Nat) ≠ c9heap.length
    ∧ ∀ w, ((returnCachedCopy c9heap (some 0)).2.write c9heap.length w).read 0
        = some { SecretString := some "payload" } := by
  have h := c9_copy_on_read c9vst c9backend 50 0 c9heap 0
    { SecretString := some "payload" } (by norm_num [c9vst]) rfl
  exact ⟨h.1, h.2.2.1, h.2.2.2.1, h.2.2.2.2.2⟩

/-! ### Helper lemmas about the resolve paths of `CachedSecret` -/

/-- A `getSecretValue` call with a truthy `VersionId` never depends on
the mapping-layer random draw or on the `VersionStage` field. -/
lemma getSecretValue_versionId_eq (st : CachedSecret) (b : Backend)
    (now r r' rv : ℚ) (req1 req2 : GetSecretValueRequest) (v : String)
    (h1 : strOptTruthy req1.VersionId = some v)
    (h2 : strOptTruthy req2.VersionId = some v) :
    st.getSecretValue b now r rv req1 = st.getSecretValue b now r' rv req2 := by
  unfold CachedSecret.getSecretValue
  rw [h1, h2]

/-- A `getSecretValue` call with a truthy `VersionId` performs no
describe call. -/
lemma getSecretValue_versionId_describes (st : CachedSecret) (b : Backend)
    (now r rv : ℚ) (req : GetSecretValueRequest) (v : String)
    (h1 : strOptTruthy req.VersionId = some v) :
    (st.getSecretValue b now r rv req).2.2.describes = 0 := by
  unfold CachedSecret.getSecretValue
  rw [h1]

/-- A stale `_getVersionIdForStage` call performs exactly one describe
call, whatever the backend answers. -/
lemma getVersionIdForStage_stale_describes (st : CachedSecret) (b : Backend)
    (now r : ℚ) (stage : String) (h : now > st.nextRefreshTime) :
    (st.getVersionIdForStage b now r stage).2.2 = 1 := by
  unfold CachedSecret.getVersionIdForStage
  rw [if_pos h]
  cases hrv : st.refreshVersions b now r <;> rfl

/-- `_getVersionForStage` performs exactly the describe calls of its
`_getVersionIdForStage` step. -/
lemma getVersionForStage_describes (st : CachedSecret) (b : Backend)
    (now r : ℚ) (stage : String) :
    (st.getVersionForStage b now r stage).2.2
      = (st.getVersionIdForStage b now r stage).2.2 := by
  unfold CachedSecret.getVersionForStage
  rcases hrv : st.getVersionIdForStage b now r stage with ⟨res, st', d⟩
  rcases res with e | ov
  · rfl
  · rcases ov with _ | vid <;> rfl

/-- On the stage path, `getSecretValue` performs exactly the describe
calls of its `_getVersionForStage` step. -/
lemma getSecretValue_stage_describes (st : CachedSecret) (b : Backend)
    (now r rv : ℚ) (request : GetSecretValueRequest)
    (hreq : strOptTruthy request.VersionId = none) :
    (st.getSecretValue b now r rv request).2.2.describes
      = (st.getVersionForStage b now r
          ((strOptTruthy request.VersionStage).getD st.config.defaultVersionStage)).2.2 := by
  unfold CachedSecret.getSecretValue
  rw [hreq]
  dsimp only
  rcases hrv : st.getVersionForStage b now r
      ((strOptTruthy request.VersionStage).getD st.config.defaultVersionStage)
    with ⟨res, st', d⟩
  rcases res with e | ov
  · rfl
  · rcases ov with _ | version <;> rfl

/-- A stale `_getVersionIdForStage` call whose refresh succeeds answers
by looking the stage up in the refreshed state. -/
lemma getVersionIdForStage_refresh (st : CachedSecret) (b : Backend)
    (now r : ℚ) (stage : String) (st' : CachedSecret)
    (hstale : now > st.nextRefreshTime)
    (hrefresh : st.refreshVersions b now r = .ok st') :
    st.getVersionIdForStage b now r stage
      = (.ok (lookupStage st'.versionIdsByStage stage), st', 1) := by
  unfold CachedSecret.getVersionIdForStage
  rw [if_pos hstale, hrefresh]

/-- `_getVersionForStage` returns `null` when the stage lookup does. -/
lemma getVersionForStage_none (st : CachedSecret) (b : Backend)
    (now r : ℚ) (stage : String) (st' : CachedSecret) (d : Nat)
    (h : st.getVersionIdForStage b now r stage = (.ok none, st', d)) :
    st.getVersionForStage b now r stage = (.ok none, st', d) := by
  unfold CachedSecret.getVersionForStage
  rw [h]

/-- On the stage path, `getSecretValue` returns `null` when
`_getVersionForStage` does. -/
lemma getSecretValue_stage_none (st : CachedSecret) (b : Backend)
    (now r rv : ℚ) (request : GetSecretValueRequest) (stageEff : String)
    (st' : CachedSecret) (d : Nat)
    (hreq : strOptTruthy request.VersionId = none)
    (hstage : (strOptTruthy request.VersionStage).getD st.config.defaultVersionStage
        = stageEff)
    (hvfs : st.getVersionForStage b now r stageEff = (.ok none, st', d)) :
    st.getSecretValue b now r rv request = (.ok none, st', ⟨d, 0⟩) := by
  unfold CachedSecret.getSecretValue
  rw [hreq]
  dsimp only
  rw [hstage, hvfs]

/-- Claim C10: when both a non-empty `VersionId` and a `VersionStage`
are supplied, the `VersionId` wins: the call behaves exactly like the
same call without a stage (even under a different mapping-layer random
draw), and no describe call is made. -/
theorem c10_version_id_precedence (st : CachedSecret) (b : Backend)
    (now r r' rv : ℚ) (v : String) (stage : Option String)
    (hv : v ≠ "") :
    st.getSecretValue b now r rv { VersionId := some v, VersionStage := stage }
      = st.getSecretValue b now r' rv { VersionId := some v, VersionStage := none }
    ∧ (st.getSecretValue b now r rv
        { VersionId := some v, VersionStage := stage }).2.2.describes = 0 := by
  have h1 : strOptTruthy ({ VersionId := some v, VersionStage := stage } :
      GetSecretValueRequest).VersionId = some v := by
    simp [strOptTruthy, hv]
  have h2 : strOptTruthy ({ VersionId := some v, VersionStage := none } :
      GetSecretValueRequest).VersionId = some v := by
    simp [strOptTruthy, hv]
  exact ⟨getSecretValue_versionId_eq st b now r r' rv _ _ v h1 h2,
    getSecretValue_versionId_describes st b now r rv _ v h1⟩

/-- A backend for the C10 witness: a mapping exists and the pinned
version resolves. -/
def c10backend : Backend :=
  { describe := fun _ => .ok (some [("v1", some ["AWSCURRENT"])])
    fetchValue := fun _ vid => .ok { SecretString := some vid } }

/-- A fresh mapping-layer entry for the C10 witness. -/
def c10st : CachedSecret := CachedSecret.new DEFAULT_CACHE_CONFIG "s" 0

/-- Witness for C10 at concrete inputs: the stage field and the mapping
draw are irrelevant, and no describe call happens. -/
theorem c10_witness :
    c10st.getSecretValue c10backend 5 (1/3) 0
        { VersionId := some "v2", VersionStage := some "AWSPREVIOUS" }
      = c10st.getSecretValue c10backend 5 (2/3) 0
        { VersionId := some "v2", VersionStage := none }
    ∧ (c10st.getSecretValue c10backend 5 (1/3) 0
        { VersionId := some "v2", VersionStage := some "AWSPREVIOUS" }).2.2.describes = 0 :=
  c10_version_id_precedence c10st c10backend 5 (1/3) (2/3) 0 "v2"
    (some "AWSPREVIOUS") (by simp)

/-- Claim C6: the first resolve on a freshly constructed `CachedSecret`
by stage (any request without a truthy `VersionId`) issues exactly one
describe call, and a resolve with a truthy `VersionId` — first or not,
on any state — issues zero describe calls. -/
theorem c6_first_resolve_describe_calls (config : CacheConfig)
    (secretId : String) (b : Backend) (t now r rv : ℚ)
    (request request' : GetSecretValueRequest) (st : CachedSecret) (v : String)
    (ht : t ≤ now)
    (hreq : strOptTruthy request.VersionId = none)
    (hreq' : strOptTruthy request'.VersionId = some v) :
    ((CachedSecret.new config secretId t).getSecretValue b now r rv request).2.2.describes = 1
    ∧ (st.getSecretValue b now r rv request').2.2.describes = 0 := by
  constructor
  · rw [getSecretValue_stage_describes _ _ _ _ _ _ hreq,
        getVersionForStage_describes]
    apply getVersionIdForStage_stale_describes
    show now > (CachedSecret.new config secretId t).nextRefreshTime
    show now > t - 1
    linarith
  · exact getSecretValue_versionId_describes st b now r rv request' v hreq'

/-- A backend for the C6 witness. -/
def c6backend : Backend :=
  { describe := fun _ => .ok (some [("v1", some ["AWSCURRENT"])])
    fetchValue := fun _ vid => .ok { SecretString := some vid } }

/-- Witness for C6: on a fresh entry, a default-stage resolve performs
one describe call and a pinned-version resolve performs none. -/
theorem c6_witness :
    ((CachedSecret.new DEFAULT_CACHE_CONFIG "s" 0).getSecretValue c6backend 5 0 0
        { VersionId := none, VersionStage := none }).2.2.describes = 1
    ∧ ((CachedSecret.new DEFAULT_CACHE_CONFIG "s" 0).getSecretValue c6backend 5 0 0
        { VersionId := some "v1", VersionStage := none }).2.2.describes = 0 :=
  c6_first_resolve_describe_calls DEFAULT_CACHE_CONFIG "s" c6backend 0 5 0 0
    { VersionId := none, VersionStage := none }
    { VersionId := some "v1", VersionStage := none }
    (CachedSecret.new DEFAULT_CACHE_CONFIG "s" 0) "v1"
    (by norm_num) rfl (by simp [strOptTruthy])

/-- Claim C5: a successful mapping refresh replaces `_versionIdsByStage`
wholesale with the snapshot built from the describe response (and resets
the refresh deadline); and a stage-based resolve whose stage is absent
from the current mapping returns `null` — both when the mapping was just
refreshed and when the cached mapping is still fresh. -/
theorem c5_mapping_snapshot (st : CachedSecret) (b : Backend) (now r rv : ℚ)
    (vits : VersionIdsToStages) (stage : String)
    (hdesc : b.describe st.secretId = .ok (some vits)) :
    st.refreshVersions b now r
      = .ok { st with versionIdsByStage := buildVersionIdsByStage vits
                      nextRefreshTime := st.resetRefreshTime now r }
    ∧ (now > st.nextRefreshTime → stage ≠ "" →
        lookupStage (buildVersionIdsByStage vits) stage = none →
        (st.getSecretValue b now r rv
            { VersionId := none, VersionStage := some stage }).1 = .ok none)
    ∧ (¬ now > st.nextRefreshTime → stage ≠ "" →
        lookupStage st.versionIdsByStage stage = none →
        (st.getSecretValue b now r rv
            { VersionId := none, VersionStage := some stage }).1 = .ok none) := by
  have hrefresh : st.refreshVersions b now r
      = .ok { st with versionIdsByStage := buildVersionIdsByStage vits
                      nextRefreshTime := st.resetRefreshTime now r } := by
    unfold CachedSecret.refreshVersions
    rw [hdesc]
  have hstagereq : strOptTruthy ({ VersionId := none, VersionStage := some stage } :
      GetSecretValueRequest).VersionId = none := rfl
  refine ⟨hrefresh, fun hstale hne hlook => ?_, fun hfresh hne hlook => ?_⟩
  · have hgetd : (strOptTruthy ({ VersionId := none, VersionStage := some stage } :
        GetSecretValueRequest).VersionStage).getD st.config.defaultVersionStage = stage := by
      simp [strOptTruthy, hne]
    have hvid := getVersionIdForStage_refresh st b now r stage _ hstale hrefresh
    rw [show lookupStage ({ st with
          versionIdsByStage := buildVersionIdsByStage vits
          nextRefreshTime := st.resetRefreshTime now r } :
        CachedSecret).versionIdsByStage stage = none from hlook] at hvid
    rw [getSecretValue_stage_none st b now r rv _ stage _ 1 hstagereq hgetd
        (getVersionForStage_none st b now r stage _ 1 hvid)]
  · have hgetd : (strOptTruthy ({ VersionId := none, VersionStage := some stage } :
        GetSecretValueRequest).VersionStage).getD st.config.defaultVersionStage = stage := by
      simp [strOptTruthy, hne]
    have hvid : st.getVersionIdForStage b now r stage
        = (.ok (lookupStage st.versionIdsByStage stage), st, 0) := by
      unfold CachedSecret.getVersionIdForStage
      rw [if_neg hfresh]
    rw [hlook] at hvid
    rw [getSecretValue_stage_none st b now r rv _ stage _ 0 hstagereq hgetd
        (getVersionForStage_none st b now r stage _ 0 hvid)]

/-- A backend for the C5 witness: the current mapping only contains the
stage `AWSCURRENT`. -/
def c5backend : Backend :=
  { describe := fun _ => .ok (some [("v2", some ["AWSCURRENT"])])
    fetchValue := fun _ vid => .ok { SecretString := some vid } }

/-- A stale mapping-layer entry whose old mapping still contains the
stage about to disappear. -/
def c5st : CachedSecret :=
  { config := DEFAULT_CACHE_CONFIG
    secretId := "s"
    versionIdsByStage := [("AWSPREVIOUS", "v1"), ("AWSCURRENT", "v1")]
    nextRefreshTime := -1
    versionCache := LRU.empty String CachedSecretVersion 10 }

/-- Witness for C5: the refresh replaces the whole mapping with the
snapshot `AWSCURRENT → v2`, and resolving the dropped stage
`AWSPREVIOUS` returns `null` rather than the old `v1`. -/
theorem c5_witness :
    c5st.refreshVersions c5backend 0 0
      = .ok { c5st with
                versionIdsByStage := buildVersionIdsByStage [("v2", some ["AWSCURRENT"])]
                nextRefreshTime := c5st.resetRefreshTime 0 0 }
    ∧ (c5st.getSecretValue c5backend 0 0 0
        { VersionId := none, VersionStage := some "AWSPREVIOUS" }).1 = .ok none := by
  have h := c5_mapping_snapshot c5st c5backend 0 0 0 [("v2", some ["AWSCURRENT"])]
    "AWSPREVIOUS" rfl
  exact ⟨h.1, h.2.1 (by norm_num [c5st]) (by simp)
    (by simp [buildVersionIdsByStage, lookupStage, hashGet, List.find?])⟩
